import Mathlib

/-!
# Verification of the Uber Eats group-order extraction engine

A shallow embedding, in Lean 4, of the scraping / financial-reconciliation
subsystem of this repository (the `uberEats.js` module): the JSON value model,
the monetary and quantity normalizers, the fee/breakdown reconciler, the
single-purpose tree-search extractors, the customer-details merge, the
credential-expiry predicate and the `getOrderDetails` orchestrator.

JavaScript numbers are modelled as exact rationals (`ℚ`); `NaN` is modelled by
`Option.none` at the points where the source can produce it (`Number(x)`
coercions), and `undefined` is modelled as `Option.none` at property reads.
Network responses (join / checkout / store HTTP replies, the HTML scrape and
the reverse-geocode reply) are inputs of the orchestrator embedding, as are the
outputs of the four deep customer-extraction sweeps that the orchestrator
merges (their internals are provider-shape sniffers whose outputs the claims
quantify over).
-/

namespace UberEats

/-! ## JSON values

Mutually inductive so that every traversal in the source can be embedded by
plain structural recursion (and hence evaluates by `rfl`/`decide`). -/

mutual
inductive Json where
  | null : Json
  | bool : Bool → Json
  | num : ℚ → Json
  | str : String → Json
  | arr : JsonArr → Json
  | obj : JsonObj → Json

inductive JsonArr where
  | nil : JsonArr
  | cons : Json → JsonArr → JsonArr

inductive JsonObj where
  | nil : JsonObj
  | cons : String → Json → JsonObj → JsonObj
end

deriving instance DecidableEq for Json
deriving instance DecidableEq for JsonArr
deriving instance DecidableEq for JsonObj

mutual
def Json.beq : Json → Json → Bool
  | .null, .null => true
  | .bool a, .bool b => a == b
  | .num a, .num b => a == b
  | .str a, .str b => a == b
  | .arr a, .arr b => JsonArr.beq a b
  | .obj a, .obj b => JsonObj.beq a b
  | _, _ => false

def JsonArr.beq : JsonArr → JsonArr → Bool
  | .nil, .nil => true
  | .cons a as, .cons b bs => Json.beq a b && JsonArr.beq as bs
  | _, _ => false

def JsonObj.beq : JsonObj → JsonObj → Bool
  | .nil, .nil => true
  | .cons k a as, .cons k' b bs => k == k' && Json.beq a b && JsonObj.beq as bs
  | _, _ => false
end

def JsonArr.toList : JsonArr → List Json
  | .nil => []
  | .cons j js => j :: js.toList

def JsonArr.ofList : List Json → JsonArr
  | [] => .nil
  | j :: js => .cons j (JsonArr.ofList js)

def JsonObj.ofList : List (String × Json) → JsonObj
  | [] => .nil
  | (k, v) :: kvs => .cons k v (JsonObj.ofList kvs)

def JsonObj.toList : JsonObj → List (String × Json)
  | .nil => []
  | .cons k v kvs => (k, v) :: kvs.toList

/-- Shorthand for embedding JSON array literals. -/
def jarr (xs : List Json) : Json := Json.arr (JsonArr.ofList xs)

/-- Shorthand for embedding JSON object literals. -/
def jobj (kvs : List (String × Json)) : Json := Json.obj (JsonObj.ofList kvs)

/-- First binding for key `k` (JS objects have unique keys, so first = only). -/
def JsonObj.find : JsonObj → String → Option Json
  | .nil, _ => none
  | .cons k' v kvs, k => if k' = k then some v else kvs.find k

/-- Property read `x.k`. Reads on non-objects yield `undefined` (`none`), which
is also the behaviour of `x?.k` on `null`/`undefined` receivers. -/
def Json.getField : Json → String → Option Json
  | .obj o, k => o.find k
  | _, _ => none

/-- `a?.k` through an optional-chained receiver. -/
def jsChain (v : Option Json) (k : String) : Option Json :=
  v.bind (·.getField k)

/-- JavaScript truthiness of a value. -/
def Json.truthy : Json → Bool
  | .null => false
  | .bool b => b
  | .num q => q ≠ 0
  | .str s => s ≠ ""
  | .arr _ => true
  | .obj _ => true

/-- Truthiness of a possibly-`undefined` value. -/
def jsTruthy (v : Option Json) : Bool :=
  match v with
  | none => false
  | some j => j.truthy

/-- `a || b` on possibly-`undefined` values. -/
def jsOr (a b : Option Json) : Option Json :=
  if jsTruthy a then a else b

/-- Digits-only decimal parser used to model `Number("...")` on the plain
decimal strings the provider emits (`"12"`, `"12.5"`, with optional sign).
`Number` on other strings is `NaN` (`none`); `Number("") = 0`. -/
def parseDecimal (s : String) : Option ℚ :=
  let s := s.trim
  if s = "" then some 0
  else
    let (sign, body) :=
      if s.startsWith "-" then ((-1 : ℚ), s.drop 1)
      else if s.startsWith "+" then ((1 : ℚ), s.drop 1) else ((1 : ℚ), s)
    let parts := body.splitOn "."
    let digitsVal (t : String) : Option ℕ :=
      if t.toList ≠ [] ∧ t.toList.all Char.isDigit then
        some (t.toList.foldl (fun a c => a * 10 + (c.toNat - 48)) 0)
      else none
    match parts with
    | [intPart] => (digitsVal intPart).map (fun n => sign * n)
    | [intPart, fracPart] =>
      match digitsVal intPart, digitsVal fracPart with
      | some n, some f =>
        some (sign * ((n : ℚ) + (f : ℚ) / ((10 : ℚ) ^ fracPart.length)))
      | _, _ => none
    | _ => none

/-- `Number(x)` coercion; `none` is `NaN`.  (`Number` of an array goes through
its string coercion in JS; no code path under verification reaches it, so the
embedding returns `NaN` for arrays and objects.) -/
def jsNumber : Json → Option ℚ
  | .null => some 0
  | .bool b => some (if b then 1 else 0)
  | .num q => some q
  | .str s => parseDecimal s
  | .arr _ => none
  | .obj _ => none

/-- `Number(x)` where `x` may be `undefined` (`Number(undefined) = NaN`). -/
def jsNumberOpt (v : Option Json) : Option ℚ :=
  match v with
  | none => none
  | some j => jsNumber j

/-- Substring test on character lists (needed for `String.prototype.includes`). -/
def containsSub : List Char → List Char → Bool
  | _, [] => true
  | [], _ :: _ => false
  | h :: t, p :: ps => (List.isPrefixOf (p :: ps) (h :: t)) || containsSub t (p :: ps)

/-- `s.includes(sub)`. -/
def containsStr (s sub : String) : Bool :=
  containsSub s.toList sub.toList

/-- `s.toLowerCase()` (character-wise, which agrees with JS on the ASCII keys
and keywords the source matches against). -/
def lowerStr (s : String) : String := String.mk (s.toList.map Char.toLower)

/-- `s.toUpperCase()` (character-wise). -/
def upperStr (s : String) : String := String.mk (s.toList.map Char.toUpper)

/-- `String(x)` coercion.  Rationals with decimal denominators are printed the
way JS prints the corresponding floats; other formatting differences (never
exercised by the theorems below) are noted inline. -/
def jsToString : Json → String
  | .null => "null"
  | .bool b => if b then "true" else "false"
  | .num q => if q.den = 1 then toString q.num else toString q
  | .str s => s
  | .arr _ => ""   -- JS joins elements with ","; never reached by a theorem
  | .obj _ => "[object Object]"

/-- `x.length` as read by the source (arrays and strings only). -/
def jsLength : Json → Option ℚ
  | .arr a => some (a.toList.length : ℚ)
  | .str s => some (s.length : ℚ)
  | _ => none

/-- `x[0]` as read by the source (arrays and strings only). -/
def jsIndex0 : Json → Option Json
  | .arr (.cons j _) => some j
  | .str s =>
    match s.toList with
    | [] => none
    | c :: _ => some (.str (String.mk [c]))
  | _ => none

/-- The element sequence a `for (let i = 0; i < x.length; i++)` loop visits. -/
def jsElems : Json → List Json
  | .arr a => a.toList
  | .str s => s.toList.map (fun c => .str (String.mk [c]))
  | _ => []

/-! ## Credential store: `isSidExpired` (source lines 141–149)

The stored expiry time is modelled directly as a millisecond timestamp
(`none` = the falsy "no expiry recorded" state). -/

/-- `isSidExpired()`: no expiry recorded → `false`; otherwise expired iff less
than 5 minutes (300 000 ms) remain until `expiry` at time `now`. -/
def isSidExpired (expiry : Option ℚ) (now : ℚ) : Bool :=
  match expiry with
  | none => false
  | some t => t - now < 5 * 60 * 1000

/-! ## Monetary / quantity normalizers (source lines 308–359) -/

/-- `safeAmountE5ToDollars(amountE5)`: falsy → 0; objects expose a `.low`
component; divides by 100000; a `NaN` coercion yields 0. -/
def safeAmountE5ToDollars (amountE5 : Option Json) : ℚ :=
  if ¬ jsTruthy amountE5 then 0
  else
    match amountE5 with
    | none => 0
    | some a =>
      let low : Json :=
        match a with
        | .obj _ | .arr _ =>
          match a.getField "low" with
          | some .null => a
          | some v => v
          | none => a
        | _ => a
      match jsNumber low with
      | some n => n / 100000
      | none => 0

/-- First finite `el.text.text.text` parse in a `richTextElements` array. -/
def firstRichTextNum : List Json → Option ℚ
  | [] => none
  | el :: rest =>
    match jsChain (jsChain (jsChain (some el) "text") "text") "text" with
    | some (.str t) =>
      match parseDecimal ((t.replace "$" "").replace "," "") with
      | some n => some n
      | none => firstRichTextNum rest
    | _ => firstRichTextNum rest

/-- `extractPriceFromItem(priceData)` (source lines 315–339). -/
def extractPriceFromItem (priceData : Json) : ℚ :=
  match priceData with
  | .num n => n
  | .obj _ | .arr _ =>
    let rtBranch : Option ℚ :=
      match priceData.getField "richTextElements" with
      | some rt => firstRichTextNum (jsElems rt)
      | none => none
    (match rtBranch with
     | some n => n
     | none =>
       match priceData.getField "text" with
       | some (.str t) =>
         (match parseDecimal ((t.replace "$" "").replace "," "") with
          | some n => n
          | none => afterText priceData)
       | _ => afterText priceData)
  | _ => 0
where
  /-- The `amountE5` / `amount` fallbacks after the text branches. -/
  afterText (priceData : Json) : ℚ :=
    if jsTruthy (priceData.getField "amountE5") then
      safeAmountE5ToDollars (priceData.getField "amountE5")
    else
      match priceData.getField "amount" with
      | some .null => 0
      | none => 0
      | some v =>
        match jsNumber v with
        | some n => n     -- `Number(x) || 0`
        | none => 0

/-- `extractQuantityFromItem(quantityData)` (source lines 341–359).  Returns
`none` only when the JS computation would leave the rationals (a fractional
exponent fed to `Math.pow`); every input reachable from parsed provider JSON
yields `some`. -/
def extractQuantityFromItem (quantityData : Json) : Option Json :=
  match quantityData with
  | .num n => some (.num n)
  | .obj _ | .arr _ =>
    let value := quantityData.getField "value"
    let coeffOk : Bool :=
      jsTruthy value &&
        (match jsChain value "coefficient" with
         | some .null => false
         | some _ => true
         | none => false)
    if coeffOk then
      let coeff : Json := (jsChain value "coefficient").getD .null
      let exponent : Json :=
        match jsChain value "exponent" with
        | some e => if e.truthy then e else .num 0
        | none => .num 0
      let base : Json :=
        match coeff with
        | .obj _ | .arr _ =>
          (match coeff.getField "low" with
           | some .null => coeff
           | some v => v
           | none => coeff)
        | _ => coeff
      let q : ℚ :=
        match jsNumber base with
        | some n => if n = 0 then 1 else n   -- `Number(base) || 1`
        | none => 1
      match jsNumber exponent with
      | none => some (.num q)   -- NaN: neither comparison fires
      | some ev =>
        if ev < 0 then
          if ev.den = 1 then some (.num (q / (10 : ℚ) ^ ev.num.natAbs)) else none
        else if ev > 0 then
          if ev.den = 1 then some (.num (q * (10 : ℚ) ^ ev.num.natAbs)) else none
        else some (.num q)
    else
      match quantityData.getField "quantity" with
      | some .null => some (.num 1)
      | some v => some v           -- the raw `.quantity` value passes through
      | none => some (.num 1)
  | _ => some (.num 1)

/-! ## Fee/breakdown reconciler (source lines 467–639) -/

/-- `x?.[0]` (optional-chained indexing; property `"0"` on plain objects). -/
def jsIndexOpt (v : Option Json) : Option Json :=
  match v with
  | none => none
  | some .null => none
  | some j =>
    match j with
    | .obj o => o.find "0"
    | _ => jsIndex0 j

/-- `getTitle(c)` (source lines 482–485): first truthy of
`c?.title?.text || c?.name || c?.label || c?.description || ''`, coerced to a
string and lower-cased. -/
def getTitle (c : Json) : String :=
  let t : Option Json :=
    jsOr (jsChain (jsChain (some c) "title") "text")
      (jsOr (jsChain (some c) "name")
        (jsOr (jsChain (some c) "label")
          (jsOr (jsChain (some c) "description") (some (.str "")))))
  lowerStr (jsToString (t.getD (.str "")))

/-- `(charge?.chargeType || charge?.type || '').toString().toUpperCase()`. -/
def getType (c : Json) : String :=
  let t : Option Json :=
    jsOr (jsChain (some c) "chargeType")
      (jsOr (jsChain (some c) "type") (some (.str "")))
  upperStr (jsToString (t.getD (.str "")))

/-- `getAmount(c)` (source lines 487–511); `none` models the `NaN` the source
produces when `amountE5.low` is missing in the analytics branch. -/
def getAmount (c : Json) : Option ℚ :=
  let meta := jsChain (some c) "fareBreakdownChargeMetadata"
  let ai := jsChain meta "analyticsInfo"
  let aiLenPos : Bool :=
    match ai with
    | some j => (match jsLength j with | some n => decide (n > 0) | none => false)
    | none => false
  let analyticsBranch : Bool := jsTruthy meta && jsTruthy ai && aiLenPos
  let a0 := ai.bind (fun j => jsIndexOpt (some j))
  let ca := jsChain a0 "currencyAmount"
  if analyticsBranch && jsTruthy ca && jsTruthy (jsChain ca "amountE5") then
    match jsNumberOpt (jsChain (jsChain ca "amountE5") "low") with
    | some n => some (n / 100000)
    | none => none
  else if jsTruthy (jsChain (some c) "amountE5") then
    some (safeAmountE5ToDollars (jsChain (some c) "amountE5"))
  else if jsTruthy (jsChain (jsChain (some c) "money") "amountE5") then
    some (safeAmountE5ToDollars (jsChain (jsChain (some c) "money") "amountE5"))
  else if jsTruthy (jsChain (jsChain (some c) "price") "amountE5") then
    some (safeAmountE5ToDollars (jsChain (jsChain (some c) "price") "amountE5"))
  else if jsTruthy (jsChain (jsChain (some c) "chargeAmount") "amountE5") then
    some (safeAmountE5ToDollars (jsChain (jsChain (some c) "chargeAmount") "amountE5"))
  else
    match jsChain (some c) "amount" with
    | some (.num n) => some n
    | _ =>
      match jsChain (jsChain (some c) "price") "text" with
      | some (.str t) => some (extractPriceFromItem (jobj [("text", .str t)]))
      | _ =>
        match jsChain (some c) "displayAmount" with
        | some (.str t) => some (extractPriceFromItem (jobj [("text", .str t)]))
        | _ => some 0

/-- Accumulator of the per-charge classification loop (source lines 468–578). -/
structure FeeAcc where
  subtotal : ℚ
  taxes : ℚ
  deliveryFee : ℚ
  serviceFee : ℚ
  tip : ℚ
  smallOrderFee : ℚ
  adjustmentsFee : ℚ
  pickupFee : ℚ
  otherFees : ℚ
  hasUberOne : Bool
  uberOneBenefit : ℚ
  currencyCode : Option Json

def feeInit : FeeAcc :=
  { subtotal := 0, taxes := 0, deliveryFee := 0, serviceFee := 0, tip := 0
    smallOrderFee := 0, adjustmentsFee := 0, pickupFee := 0, otherFees := 0
    hasUberOne := false, uberOneBenefit := 0, currencyCode := none }

/-- The discount/benefit keyword test of source line 530. -/
def hasDiscountKeyword (title : String) : Bool :=
  ["uber one", "membership", "benefit", "discount"].any (containsStr title ·)

/-- `if (!currencyCode) currencyCode = charge?...currencyCode || null`
(source lines 524–526). -/
def updateCurrency (acc : FeeAcc) (charge : Json) : FeeAcc :=
  match acc.currencyCode with
  | some _ => acc
  | none =>
    let cc :=
      jsChain (jsIndexOpt
        (jsChain (jsChain (some charge) "fareBreakdownChargeMetadata") "analyticsInfo"))
        "currencyAmount" |> (jsChain · "currencyCode")
    { acc with currencyCode := if jsTruthy cc then cc else none }

/-- One iteration of the charge-classification loop (source lines 518–578). -/
def feeStep (acc : FeeAcc) (charge : Json) : FeeAcc :=
  let title := getTitle charge
  let ctype := getType charge
  let acc := updateCurrency acc charge
  match getAmount charge with
  | none => acc   -- `if (!Number.isFinite(amt)) continue`
  | some amt =>
    if amt < 0 ∧ hasDiscountKeyword title then
      { acc with hasUberOne := true, uberOneBenefit := acc.uberOneBenefit + |amt| }
    else if amt < 0 then acc
    else if containsStr title "subtotal" then { acc with subtotal := amt }
    else if containsStr title "tax" ∨ containsStr title "taxes" then
      { acc with taxes := acc.taxes + amt }
    else if containsStr title "delivery" ∨ ctype = "DELIVERY_FEE" ∨
        containsStr title "delivery fee" then
      { acc with deliveryFee := acc.deliveryFee + amt }
    else if containsStr title "service" ∨ containsStr title "fees" ∨
        ctype = "SERVICE_FEE" ∨ containsStr title "service fee" then
      { acc with serviceFee := acc.serviceFee + amt }
    else if containsStr title "tip" ∨ ctype = "TIP" ∨ containsStr title "gratuity" then
      { acc with tip := acc.tip + amt }
    else if containsStr title "small order" ∨ ctype = "SMALL_ORDER_FEE" ∨
        containsStr title "small order fee" then
      { acc with smallOrderFee := acc.smallOrderFee + amt }
    else if containsStr title "adjustments" ∨ containsStr title "adjustment" ∨
        ctype = "ADJUSTMENT" then
      { acc with adjustmentsFee := acc.adjustmentsFee + amt }
    else if containsStr title "pickup" ∨ ctype = "PICKUP_FEE" ∨
        containsStr title "pickup fee" then
      { acc with pickupFee := acc.pickupFee + amt }
    else if ["fee", "charge", "cost", "surcharge", "additional", "platform",
        "processing", "convenience", "booking", "order", "handling"].any
        (containsStr title ·) then
      { acc with otherFees := acc.otherFees + amt }
    else if amt > 0 then { acc with otherFees := acc.otherFees + amt }
    else acc

/-- `Number(x.toFixed(2))` / `Math.round(x * 100) / 100`, modelled as exact
round-half-up to cents (`Mathlib.round` is `⌊x + 1/2⌋`, which is the behaviour
of `Math.round`; the theorems below never sit on a float-artifact boundary). -/
def round2 (q : ℚ) : ℚ := (round (q * 100) : ℤ) / 100

/-- The reconciled output of `extractSubtotalAndFeesFromCheckoutPayloads`. -/
structure Breakdown where
  subtotal : ℚ
  taxes : ℚ
  fees : ℚ
  deliveryFee : ℚ
  serviceFee : ℚ
  tip : ℚ
  smallOrderFee : ℚ
  adjustmentsFee : ℚ
  pickupFee : ℚ
  otherFees : ℚ
  hasUberOne : Bool
  uberOneBenefit : ℚ
  total : ℚ
  currencyCode : Option Json

/-- The post-loop phase of the reconciler (source lines 580–638): total
extraction, loyalty-benefit fallback, fee fallback #1 (back-computed
`total - subtotal - taxes`), fee fallback #2 (flat estimates) and the final
rounding / derived-fee pass. -/
def feePost (acc : FeeAcc) (checkoutPayloads : Json) : Breakdown :=
  let tAI :=
    jsChain (jsIndexOpt (jsChain (jsChain (some checkoutPayloads) "total") "analyticsInfo"))
      "currencyAmount"
  let tAIamountE5 := jsChain tAI "amountE5"
  let total₁ : ℚ :=
    if jsTruthy tAIamountE5 then safeAmountE5ToDollars tAIamountE5 else 0
  let cc₁ : Option Json :=
    if jsTruthy tAIamountE5 then
      match acc.currencyCode with
      | some c => some c
      | none =>
        let tcc := jsChain tAI "currencyCode"
        if jsTruthy tcc then tcc else none
    else acc.currencyCode
  let plainTotalE5 := jsChain (jsChain (some checkoutPayloads) "total") "amountE5"
  let total₂ : ℚ :=
    if total₁ = 0 ∧ plainTotalE5.isSome then safeAmountE5ToDollars plainTotalE5
    else total₁
  let benefit : ℚ :=
    if acc.uberOneBenefit = 0 ∧ acc.subtotal > 0 then round2 (acc.subtotal * (19 / 200))
    else acc.uberOneBenefit
  let currentFees := acc.deliveryFee + acc.serviceFee + acc.tip + acc.smallOrderFee +
    acc.adjustmentsFee + acc.pickupFee + acc.otherFees
  let otherFees₁ : ℚ :=
    if currentFees = 0 ∧ total₂ > 0 ∧ acc.subtotal > 0 then
      (if total₂ - acc.subtotal - acc.taxes > 0 then total₂ - acc.subtotal - acc.taxes
       else acc.otherFees)
    else acc.otherFees
  let finalCurrentFees := acc.deliveryFee + acc.serviceFee + acc.tip + acc.smallOrderFee +
    acc.adjustmentsFee + acc.pickupFee + otherFees₁
  let estimate : Bool := finalCurrentFees = 0 ∧ acc.subtotal > 0
  let dF : ℚ := if estimate then 399 / 100 else acc.deliveryFee
  let sF : ℚ := if estimate then (round (acc.subtotal * (12 / 100) * 100) : ℤ) / 100
    else acc.serviceFee
  let soF : ℚ := if estimate then (if acc.subtotal < 10 then 2 else 0)
    else acc.smallOrderFee
  let fees₀ := round2 (dF + sF + acc.tip + soF + acc.adjustmentsFee + acc.pickupFee +
    otherFees₁)
  let fees : ℚ :=
    if fees₀ = 0 ∧ total₂ ≠ 0 ∧ acc.subtotal ≠ 0 then
      (let derived := round2 (total₂ - acc.subtotal - acc.taxes)
       if derived > 0 then derived else fees₀)
    else fees₀
  { subtotal := acc.subtotal, taxes := acc.taxes, fees := fees, deliveryFee := dF
    serviceFee := sF, tip := acc.tip, smallOrderFee := soF
    adjustmentsFee := acc.adjustmentsFee, pickupFee := acc.pickupFee
    otherFees := otherFees₁, hasUberOne := acc.hasUberOne, uberOneBenefit := benefit
    total := total₂, currencyCode := cc₁ }

/-- `const allCharges = charges.length > 0 ? charges : altCharges`
(source lines 514–516). -/
def allChargesVal (p : Json) : Json :=
  let charges := jsOr (jsChain (jsChain (some p) "fareBreakdown") "charges")
    (some (jarr []))
  let altCharges := jsOr (jsChain (some p) "charges")
    (jsOr (jsChain (jsChain (some p) "fareBreakdown") "items") (some (jarr [])))
  let lenPos : Bool :=
    match charges with
    | some j => (match jsLength j with | some n => decide (n > 0) | none => false)
    | none => false
  if lenPos then charges.getD (jarr []) else altCharges.getD (jarr [])

/-- `extractSubtotalAndFeesFromCheckoutPayloads(checkoutPayloads)`
(source lines 467–639). -/
def extractSubtotalAndFeesFromCheckoutPayloads (checkoutPayloads : Json) : Breakdown :=
  feePost ((jsElems (allChargesVal checkoutPayloads)).foldl feeStep feeInit)
    checkoutPayloads

/-! ## Single-purpose tree-search extractors (source lines 641–678, 2278–2344) -/

/-- Key test `/(storeuuid|store_uuid|storeid|merchantuuid|merchantid)/i.test(k)`. -/
def storeUuidKey (k : String) : Bool :=
  ["storeuuid", "store_uuid", "storeid", "merchantuuid", "merchantid"].any
    (containsStr (lowerStr k) ·)

mutual
/-- `findStoreUuid(obj)` (source lines 641–653). -/
def findStoreUuid : Json → Option Json
  | .arr a => findStoreUuidArr a
  | .obj o => findStoreUuidObj o
  | _ => none

def findStoreUuidArr : JsonArr → Option Json
  | .nil => none
  | .cons j js =>
    let r := findStoreUuid j
    if jsTruthy r then r else findStoreUuidArr js

def findStoreUuidObj : JsonObj → Option Json
  | .nil => none
  | .cons k v kvs =>
    if storeUuidKey k && (match v with | .str _ => true | _ => false) then some v
    else
      let r := findStoreUuid v
      if jsTruthy r then r else findStoreUuidObj kvs
end

mutual
/-- `findRestaurantLogo(data)` (source lines 655–670). -/
def findRestaurantLogo : Json → Option Json
  | .str s =>
    if s.startsWith "https://tb-static.uber.com/prod/image-proc/processed_images" ∧
        s.endsWith ".png" then some (.str s)
    else none
  | .arr a => findRestaurantLogoArr a
  | .obj o =>
    let hb := jsChain ((Json.obj o).getField "headerBrandingInfo") "logoImageURL"
    if jsTruthy hb then hb else findRestaurantLogoVals o
  | _ => none

def findRestaurantLogoArr : JsonArr → Option Json
  | .nil => none
  | .cons j js =>
    let r := findRestaurantLogo j
    if jsTruthy r then r else findRestaurantLogoArr js

def findRestaurantLogoVals : JsonObj → Option Json
  | .nil => none
  | .cons _ v kvs =>
    let r := findRestaurantLogo v
    if jsTruthy r then r else findRestaurantLogoVals kvs
end

mutual
/-- `findUberOneLogo(data)` (source lines 672–678). -/
def findUberOneLogo : Json → Bool
  | .str s => s = "https://dkl8of78aprwd.cloudfront.net/uber_one@3x.png"
  | .arr a => findUberOneLogoArr a
  | .obj o => findUberOneLogoObj o
  | _ => false

def findUberOneLogoArr : JsonArr → Bool
  | .nil => false
  | .cons j js => findUberOneLogo j || findUberOneLogoArr js

def findUberOneLogoObj : JsonObj → Bool
  | .nil => false
  | .cons _ v kvs => findUberOneLogo v || findUberOneLogoObj kvs
end

mutual
/-- `findDeliveryCoords(obj)` (source lines 2278–2289); the hit is the pair of
raw `latitude` / `longitude` values. -/
def findDeliveryCoords : Json → Option (Json × Json)
  | .arr a => findDeliveryCoordsArr a
  | .obj o =>
    let la := (Json.obj o).getField "latitude"
    let lo := (Json.obj o).getField "longitude"
    if jsTruthy la ∧ jsTruthy lo then some (la.getD .null, lo.getD .null)
    else findDeliveryCoordsVals o
  | _ => none

def findDeliveryCoordsArr : JsonArr → Option (Json × Json)
  | .nil => none
  | .cons j js =>
    match findDeliveryCoords j with
    | some r => some r
    | none => findDeliveryCoordsArr js

def findDeliveryCoordsVals : JsonObj → Option (Json × Json)
  | .nil => none
  | .cons _ v kvs =>
    match findDeliveryCoords v with
    | some r => some r
    | none => findDeliveryCoordsVals kvs
end

/-- Truthiness of a string-or-null intermediate (`""` is falsy). -/
def strFound (r : Option String) : Bool :=
  match r with
  | some s => s ≠ ""
  | none => false

mutual
/-- `findDeliveryAddress(obj)` (source lines 2323–2344).  The `displayString`
branch is the verbatim translation of `s.split(', ', 1)[1]`: JS `split` with
limit 1 keeps only the first field, so the `[1]` read is `undefined` (`none`). -/
def findDeliveryAddress : Json → Option String
  | .arr a => findDeliveryAddressArr a
  | .obj o =>
    match o.find "displayString" with
    | some (.str s) =>
      if containsStr s ", " then ((s.splitOn ", ").take 1)[1]?
      else some s
    | _ =>
      let candidates := [o.find "address1", o.find "address2", o.find "aptOrSuite",
        o.find "formattedAddress"]
      let parts := (candidates.filterMap id).filter Json.truthy
      if ¬ parts.isEmpty then
        some (String.intercalate ", " (parts.map jsToString))
      else findDeliveryAddressVals o
  | _ => none

def findDeliveryAddressArr : JsonArr → Option String
  | .nil => none
  | .cons j js =>
    let r := findDeliveryAddress j
    if strFound r then r else findDeliveryAddressArr js

def findDeliveryAddressVals : JsonObj → Option String
  | .nil => none
  | .cons _ v kvs =>
    let r := findDeliveryAddress v
    if strFound r then r else findDeliveryAddressVals kvs
end

/-! ## Link validation: `extractGroupUuid` (source lines 244–253) -/

/-- Character class `[\w-]` of the path-segment pattern. -/
def wordDashChar (c : Char) : Bool :=
  c.isAlphanum || c = '_' || c = '-'

/-- Character class `[a-f0-9-]` (case-insensitive) of the query pattern. -/
def hexDashChar (c : Char) : Bool :=
  ('a' ≤ c.toLower ∧ c.toLower ≤ 'f') || c.isDigit || c = '-'

/-- Case-insensitive prefix test against an already-lower-cased pattern. -/
def lowerPrefixOf : List Char → List Char → Bool
  | [], _ => true
  | _ :: _, [] => false
  | p :: ps, h :: hs => p = h.toLower && lowerPrefixOf ps hs

/-- First regex-style match: earliest occurrence of `pat` followed by a
non-empty run of `pred` characters (the greedy capture group). -/
def scanMatch (hay : List Char) (pat : List Char) (pred : Char → Bool) :
    Option String :=
  match hay with
  | [] => none
  | _ :: t =>
    if lowerPrefixOf pat hay then
      let run := (hay.drop pat.length).takeWhile pred
      if run ≠ [] then some (String.mk run) else scanMatch t pat pred
    else scanMatch t pat pred

/-- `extractGroupUuid(link)`: a `/group-orders/<uuid>` path segment, else a
`groupOrderUuid=<uuid>` query parameter, else `null`; non-string or falsy
links yield `null`. -/
def extractGroupUuid (link : Option Json) : Option String :=
  match link with
  | some (.str s) =>
    if s = "" then none
    else
      match scanMatch s.toList "/group-orders/".toList wordDashChar with
      | some u => some u
      | none => scanMatch s.toList "grouporderuuid=".toList hexDashChar
  | _ => none

/-! ## Order items (source lines 361–465) -/

mutual
def Json.size : Json → ℕ
  | .arr a => a.size + 1
  | .obj o => o.size + 1
  | _ => 1

def JsonArr.size : JsonArr → ℕ
  | .nil => 0
  | .cons j js => j.size + js.size + 1

def JsonObj.size : JsonObj → ℕ
  | .nil => 0
  | .cons _ v kvs => v.size + kvs.size + 1
end

/-- `pushText(v)` of `extractCustomizations`: the value, if any, appended to
the customization list for one candidate. -/
def pushTextVal (v : Option Json) : List Json :=
  match v with
  | none => []
  | some j =>
    if ¬ j.truthy then []
    else
      match j with
      | .str s => [.str s]
      | _ =>
        if jsTruthy (j.getField "text") then [(j.getField "text").getD .null]
        else if jsTruthy (j.getField "label") then [(j.getField "label").getD .null]
        else if jsTruthy (j.getField "name") then [(j.getField "name").getD .null]
        else []

/-- `t = el?.text?.text?.text || el?.text?.text || el?.text; if (t) String(t)`
for one rich-text element. -/
def richTextPart (el : Json) : List String :=
  let t := jsOr (jsChain (jsChain ((some el).bind (·.getField "text")) "text") "text")
    (jsOr (jsChain ((some el).bind (·.getField "text")) "text") (el.getField "text"))
  match t with
  | some v => if v.truthy then [jsToString v] else []
  | none => []

/-- `scanArray` of `extractCustomizations` (source lines 370–391).  The JS
recursion descends into the `options`/`selectedOptions`/`selected`/`choices`/
`items` sub-arrays of each element, which are strict subterms of the (finite)
input tree; the `fuel` argument bounds that descent and is seeded with the
size of the whole item, so it never runs out on any actual input. -/
def scanCustomizations (fuel : ℕ) (elems : List Json) : List Json :=
  match fuel with
  | 0 => []
  | fuel + 1 =>
    elems.foldl (fun acc c =>
      if ¬ c.truthy then acc
      else
        match c with
        | .str s => acc ++ [.str s]
        | _ =>
          let rich : List Json :=
            match c.getField "richTextElements" with
            | some (.arr els) =>
              let parts := (els.toList.map richTextPart).flatten
              if ¬ parts.isEmpty then [.str (String.join parts)] else []
            | _ => []
          let texts := pushTextVal (some c) ++ pushTextVal (c.getField "title") ++
            pushTextVal (c.getField "option")
          let nested :=
            (["options", "selectedOptions", "selected", "choices", "items"].map
              (fun k =>
                match c.getField k with
                | some (.arr sub) => scanCustomizations fuel sub.toList
                | _ => [])).flatten
          acc ++ rich ++ texts ++ nested) []

/-- `extractCustomizations(item)` (source lines 361–401). -/
def extractCustomizations (item : Json) : List Json :=
  (["customizations", "modifiers", "selectedOptions", "options", "toppings",
    "ingredients", "addons", "addOns", "selections", "groups"].map
    (fun k =>
      match item.getField k with
      | some (.arr arr) => scanCustomizations item.size arr.toList
      | _ => [])).flatten

/-- First truthy `el?.text?.text?.text` in a title's rich-text elements. -/
def firstRichTextTitle : List Json → Option Json
  | [] => none
  | el :: rest =>
    let t := jsChain (jsChain ((some el).bind (·.getField "text")) "text") "text"
    if jsTruthy t then t else firstRichTextTitle rest

/-- `extractItemName(item)` (source lines 403–423); the rich-text hit is
returned raw, hence the `Json` result. -/
def extractItemName (item : Json) : Json :=
  let title := item.getField "title"
  let fromTitle : Option Json :=
    if jsTruthy title then
      match title with
      | some (.str s) => some (.str s)
      | some (.obj o) =>
        let rich :=
          match o.find "richTextElements" with
          | some (.arr els) => firstRichTextTitle els.toList
          | _ => none
        (match rich with
         | some t => some t
         | none => if jsTruthy (o.find "text") then o.find "text" else none)
      | some (.arr _) => none   -- `typeof` object but no richTextElements/text props
      | _ => none
    else none
  match fromTitle with
  | some t => t
  | none =>
    match (["name", "itemName", "displayName", "productName"].map
      (fun k => match item.getField k with
        | some (.str s) => some s
        | _ => none)).reduceOption.head? with
    | some s => .str s
    | none => .str "Unknown Item"

/-- One extracted order item. -/
structure OrderItem where
  name : Json
  quantity : Option Json
  price : ℚ
  customizations : List Json

/-- The price cascade of source lines 452–458. -/
def itemPrice (item : Json) : ℚ :=
  let p₀ : ℚ :=
    if jsTruthy (item.getField "originalPrice") then
      extractPriceFromItem ((item.getField "originalPrice").getD .null)
    else 0
  if p₀ ≠ 0 then p₀
  else
    (["price", "totalPrice", "unitPrice", "amount"].foldl (fun p k =>
      if p ≠ 0 then p
      else if jsTruthy (item.getField k) then
        extractPriceFromItem ((item.getField k).getD .null)
      else p) p₀)

/-- `extractOrderItemsFromCheckout(checkoutData)` (source lines 425–465). -/
def extractOrderItemsFromCheckout (checkoutData : Option Json) : List OrderItem :=
  let data := (jsOr (jsChain checkoutData "data") (some (jobj []))).getD (jobj [])
  let payloads := (jsOr (data.getField "checkoutPayloads") (some (jobj []))).getD (jobj [])
  let cartItems : List Json :=
    if jsTruthy (jsChain (payloads.getField "cartItems") "cartItems") then
      jsElems ((jsChain (payloads.getField "cartItems") "cartItems").getD .null)
    else
      match payloads.getField "orderItems" with
      | some (.arr a) => a.toList
      | oi =>
        match jsChain oi "items" with
        | some (.arr a) => a.toList
        | _ => []
  cartItems.map (fun item =>
    { name := extractItemName item
      quantity :=
        match item.getField "quantity" with
        | some .null => some (.num 1)
        | none => some (.num 1)
        | some q => extractQuantityFromItem q
      price := itemPrice item
      customizations := extractCustomizations item })

/-! ## Customer-details merge (source lines 2672–2787)

`customerDetails` is a JS object mutated in place; it is modelled as an
insertion-ordered association list.  The four deep extraction passes
(`extractCustomerDetails`, `extractCustomerFromJoinData`,
`extractCustomerFromCheckoutData`, `extractRealCustomerData`) are
provider-shape sniffers whose outputs feed this merge; the merge takes them as
arguments, exactly as `getOrderDetails` receives them from the calls at source
lines 2536/2540/2673/2681/2694/2703. -/

/-- An insertion-ordered JS object. -/
abbrev CustMap := List (String × Json)

/-- `m[k]` (`undefined` when absent). -/
def lookupJs (m : CustMap) (k : String) : Option Json :=
  (m.find? (fun kv => kv.1 == k)).map (·.2)

/-- `m[k] = v`: update in place, else append (JS property-order semantics). -/
def setKey : CustMap → String → Json → CustMap
  | [], k, v => [(k, v)]
  | (k', v') :: rest, k, v =>
    if k' == k then (k, v) :: rest else (k', v') :: setKey rest k v

/-- `Object.assign(m, src)`: every own key of `src` overwrites `m`. -/
def objectAssign (m src : CustMap) : CustMap :=
  src.foldl (fun acc kv => setKey acc kv.1 kv.2) m

/-- One iteration of the `forEach` merges of source lines 2741–2765: copy
`src[k]` into the accumulating object only when `src[k]` is truthy, the
accumulator's current value is falsy, and `k` is not excluded. -/
def mergeStep (excluded : List String) (acc : CustMap) (kv : String × Json) : CustMap :=
  if ¬ excluded.contains kv.1 && kv.2.truthy && ¬ jsTruthy (lookupJs acc kv.1) then
    setKey acc kv.1 kv.2
  else acc

/-- The `forEach` merges of source lines 2741–2765. -/
def mergeIfAbsent (m src : CustMap) (excluded : List String) : CustMap :=
  src.foldl (mergeStep excluded) m

/-- The element list behind `[...m[k]]` (the source only ever spreads the
array-valued list fields; a non-array would throw in JS). -/
def listAt (m : CustMap) (k : String) : List Json :=
  match lookupJs m k with
  | some (.arr a) => a.toList
  | _ => []

/-- `[...new Set(list.map(JSON.stringify))].map(JSON.parse)`: first-occurrence
deduplication by structural equality. -/
def dedupJson (l : List Json) : List Json :=
  (l.foldl (fun (acc : List Json) j =>
    if acc.any (fun j' => Json.beq j' j) then acc else acc ++ [j]) [])

/-- The four list-valued customer keys of source lines 2706–2728. -/
def customerListKeys : List String :=
  ["customer_favorite_restaurants", "customer_dietary_preferences",
   "customer_payment_methods", "customer_delivery_addresses"]

/-- One list-field concatenation of source lines 2706–2728. -/
def concatListKey (realC realJ : CustMap) (m : CustMap) (k : String) : CustMap :=
  setKey m k (jarr (listAt m k ++ listAt realC k ++ listAt realJ k))

/-- One phone-specific guarded merge of source lines 2731–2738. -/
def phoneMerge (src m : CustMap) : CustMap :=
  if jsTruthy (lookupJs src "customer_phone") &&
      ¬ jsTruthy (lookupJs m "customer_phone") then
    setKey m "customer_phone" ((lookupJs src "customer_phone").getD .null)
  else m

/-- The delivery-instructions write of source lines 2778–2781. -/
def instrWrite (instr : Option String) (m : CustMap) : CustMap :=
  match instr with
  | some i => if i ≠ "" then setKey m "delivery_instructions" (.str i) else m
  | none => m

/-- One list-field deduplication of source lines 2784–2787. -/
def dedupListKey (m : CustMap) (k : String) : CustMap :=
  setKey m k (jarr (dedupJson (listAt m k)))

/-- The full customer-details merge performed inline by `getOrderDetails`
(source lines 2672–2787): `Object.assign` of the join- and checkout-derived
customer info (lines 2685/2698), concatenation of the four list fields (lines
2706–2728), the phone-specific guarded merges (lines 2731–2738), the guarded
scalar merges of the two `extractRealCustomerData` outputs (lines 2741–2757)
and of the additional data (lines 2760–2765), the delivery-instructions write
(lines 2778–2781), and the final deduplication (lines 2784–2787). -/
def mergeCustomerDetails (base joinInfo checkoutInfo realC realJ additional : CustMap)
    (instr : Option String) : CustMap :=
  let m := if ¬ joinInfo.isEmpty then objectAssign base joinInfo else base
  let m := if ¬ checkoutInfo.isEmpty then objectAssign m checkoutInfo else m
  let m := customerListKeys.foldl (concatListKey realC realJ) m
  let m := phoneMerge realC m
  let m := phoneMerge realJ m
  let m := mergeIfAbsent m realC customerListKeys
  let m := mergeIfAbsent m realJ customerListKeys
  let m := mergeIfAbsent m additional []
  let m := instrWrite instr m
  customerListKeys.foldl dedupListKey m

/-! ## The order orchestrator: `getOrderDetails` (source lines 2467–2922)

The network boundary is modelled as data: the orchestrator embedding receives
the join / checkout / store response (status and body), the result of the HTML
scrape (`scrapeHtmlForDelivery`, itself a network + regex routine), the result
of the reverse geocode (`getLocationDetails`), and the outputs of the deep
customer-extraction sweeps it merges.  Everything the orchestrator itself
computes from those inputs is embedded from the source. -/

/-- What `scrapeHtmlForDelivery` returned (source lines 2370–2465): each field
is the first regex hit in the page, coordinates already `Number`-coerced and
validated finite. -/
structure ScrapeResult where
  address : Option String
  coords : Option (ℚ × ℚ)
  instructions : Option String
  phone : Option String

/-- What `getLocationDetails` returned (source lines 2346–2368). -/
structure GeoResult where
  city : Option String
  state : Option String
  zip : Option String

structure OrderEnv where
  /-- The `link` argument. -/
  link : Option Json
  /-- HTTP status of the join call. -/
  joinStatus : ℕ
  /-- `joinRes?.data`. -/
  joinData : Option Json
  /-- HTTP status of the checkout call. -/
  checkoutStatus : ℕ
  /-- `checkoutRes?.data`. -/
  checkoutData : Option Json
  /-- `storeRes?.data` (read only when a store UUID was found). -/
  storeData : Option Json
  /-- `extractCustomerDetails(checkoutRes?.data)` (source line 2673). -/
  customerDetails0 : CustMap
  /-- `extractCustomerFromJoinData(joinData.data)` (source line 2681). -/
  joinCustomerInfo : CustMap
  /-- `extractCustomerFromCheckoutData(checkoutRes.data.data)` (source line 2694). -/
  checkoutCustomerInfo : CustMap
  /-- `extractRealCustomerData(checkoutRes?.data)` (source line 2703). -/
  realCheckoutData : CustMap
  /-- `extractRealCustomerData(joinData)` (source line 2536). -/
  realJoinData : CustMap
  /-- `extractAdditionalUberEatsData(joinData)` (source line 2540). -/
  additionalData : CustMap
  /-- `extractDeliveryInstructions(joinData)` (source line 2544). -/
  joinInstructions : Option String
  /-- `extractDeliveryInstructions(checkoutRes?.data)` (source line 2623). -/
  checkoutInstructions : Option String
  /-- The HTML-scrape result (source lines 2835 and 2850). -/
  htmlScrape : ScrapeResult
  /-- The reverse-geocode result (source line 2867), `none` when it failed. -/
  geo : Option GeoResult

/-- The result aggregate of `getOrderDetails`.  `none` in an `Option`-valued
field covers both an absent key and an explicit `null` (JS callers only ever
truthiness-test them). -/
structure OrderResult where
  success : Bool
  error : Option String := none
  subtotal : ℚ
  fees : ℚ
  taxes : ℚ
  delivery_fee : Option ℚ := none
  service_fee : Option ℚ := none
  tip : Option ℚ := none
  small_order_fee : Option ℚ := none
  adjustments_fee : Option ℚ := none
  pickup_fee : Option ℚ := none
  other_fees : Option ℚ := none
  has_uber_one : Option Bool := none
  uber_one_benefit : Option ℚ := none
  items : List OrderItem
  restaurant_name : Option String := none
  restaurant_address : Option Json := none
  restaurant_hours : Option Json := none
  delivery_address : Option String := none
  delivery_instructions : Option String := none
  restaurant_image_url : Option Json := none
  is_uber_one_eligible : Option Bool := none
  total : Option ℚ := none
  currency : Option Json := none
  customer_details : CustMap

/-- The restaurant-name derivation of source lines 2817–2822 (`#<rank>` prefix
stripping; non-string titles go through `String(title)`). -/
def restaurantNameOf (title : Option Json) : Option String :=
  match title with
  | some (.str t) =>
    if t ≠ "" then
      if t.startsWith "#" then
        let stripped := String.intercalate " " ((t.splitOn " ").drop 1)
        if stripped ≠ "" then some stripped else some t
      else some t
    else none
  | some v => if v.truthy then some (jsToString v) else none
  | none => none

/-- The address enhancement of source lines 2869–2882. -/
def enhanceAddress (deliveryAddress : Option String) (loc : GeoResult) :
    Option String :=
  let cityPart : List String := match loc.city with
    | some c => if c ≠ "" then [c] else []
    | none => []
  let stateZipPart : List String :=
    match loc.state, loc.zip with
    | some st, some z =>
      if st ≠ "" ∧ z ≠ "" then [st ++ " " ++ z]
      else if st ≠ "" then [st]
      else if z ≠ "" then [z]
      else []
    | some st, none => if st ≠ "" then [st] else []
    | none, some z => if z ≠ "" then [z] else []
    | none, none => []
  match deliveryAddress with
  | some s =>
    if s ≠ "" ∧ s.toList.any Char.isDigit then
      let base := if containsStr s "," then ((s.splitOn ",").headD s).trim else s
      some (String.intercalate ", " ([base] ++ cityPart ++ stateZipPart))
    else
      let parts := cityPart ++ stateZipPart
      if ¬ parts.isEmpty then some (String.intercalate ", " parts) else none
  | none =>
    let parts := cityPart ++ stateZipPart
    if ¬ parts.isEmpty then some (String.intercalate ", " parts) else none

/-- Source line 2470: the invalid-link failure object (note: no `error` key). -/
def invalidLinkResult : OrderResult :=
  { success := false, subtotal := 0, fees := 0, taxes := 0, items := []
    is_uber_one_eligible := some false, customer_details := [] }

/-- Source line 2504: the non-200 join failure object. -/
def joinFailResult (status : ℕ) : OrderResult :=
  { success := false, error := some ("join failed: " ++ toString status)
    subtotal := 0, fees := 0, taxes := 0, items := [], customer_details := [] }

/-- Source line 2638: the non-200 checkout failure object. -/
def checkoutFailResult (status : ℕ) : OrderResult :=
  { success := false, error := some ("checkout failed: " ++ toString status)
    subtotal := 0, fees := 0, taxes := 0, items := [], customer_details := [] }

/-- Source lines 2642–2652: the provider-reported-failure object. -/
def apiFailureResult (env : OrderEnv) : OrderResult :=
  { success := false
    error := some ("Uber Eats API error: " ++
      jsToString ((jsOr (jsChain (jsChain env.checkoutData "data") "message")
        (some (.str "Unknown error"))).getD (.str "Unknown error")))
    subtotal := 0, fees := 0, taxes := 0, items := [], customer_details := [] }

/-- The success path of `getOrderDetails` (source lines 2506–2918): join-data
extraction and delivery seeding, reconciliation, item extraction, the
customer-details merge, store info, the HTML fallback, the reverse-geocode
enhancement, and the total fallback. -/
def successResult (env : OrderEnv) : OrderResult :=
  let joinData : Json := (jsOr env.joinData (some (jobj []))).getD (jobj [])
      let storeUuid₀ := findStoreUuid joinData
      -- source lines 2581–2587: delivery seed from the join response
      let joinDelivery : Json :=
        (jsOr (jsChain (jsChain (some joinData) "data") "deliveryAddress")
          (some (jobj []))).getD (jobj [])
      let deliveryCoords₀ : Option (Json × Json) :=
        if jsTruthy (joinDelivery.getField "latitude") ∧
            jsTruthy (joinDelivery.getField "longitude") then
          some ((joinDelivery.getField "latitude").getD .null,
            (joinDelivery.getField "longitude").getD .null)
        else none
      let addr : Json := (jsOr (joinDelivery.getField "address") (some (jobj []))).getD (jobj [])
      let aptPart : Option Json :=
        if jsTruthy (addr.getField "aptOrSuite") then
          some (.str ("Apt " ++ jsToString ((addr.getField "aptOrSuite").getD .null)))
        else none
      let addrParts : List Json :=
        ([addr.getField "address1", addr.getField "address2", aptPart].filterMap id).filter
          Json.truthy
      let deliveryAddress₀ : Option String :=
        if ¬ addrParts.isEmpty then
          some (String.intercalate ", " (addrParts.map jsToString))
        else none
      let checkoutPayloads : Json :=
          (jsOr (jsChain (jsChain env.checkoutData "data") "checkoutPayloads")
            (some (jobj []))).getD (jobj [])
        let b := extractSubtotalAndFeesFromCheckoutPayloads checkoutPayloads
        let items := extractOrderItemsFromCheckout env.checkoutData
        -- source lines 2673–2787: the customer-details merge
        let joinInfo : CustMap :=
          if jsTruthy (jsChain (some joinData) "data") then env.joinCustomerInfo else []
        let checkoutInfo : CustMap :=
          if jsTruthy (jsChain env.checkoutData "data") then env.checkoutCustomerInfo
          else []
        let deliveryInstructions₁ : Option String :=
          if strFound env.joinInstructions then env.joinInstructions
          else if strFound env.checkoutInstructions then env.checkoutInstructions
          else none
        let customerDetails₁ : CustMap :=
          mergeCustomerDetails env.customerDetails0 joinInfo checkoutInfo
            env.realCheckoutData env.realJoinData env.additionalData
            deliveryInstructions₁
        -- source line 2804: store-UUID fallback
        let storeUuid : Option Json :=
          if jsTruthy storeUuid₀ then storeUuid₀
          else findStoreUuid (env.checkoutData.getD .null)
        -- source lines 2807–2827: store info
        let info : Json :=
          (jsOr (jsChain (jsOr env.storeData (some (jobj []))) "data")
            (some (jobj []))).getD (jobj [])
        let restaurantName : Option String :=
          if jsTruthy storeUuid then restaurantNameOf (info.getField "title") else none
        let restaurantAddress : Option Json :=
          if jsTruthy storeUuid then
            (let v := jsChain (jsChain (some info) "location") "address"
             if jsTruthy v then v else none)
          else none
        let restaurantHours : Option Json :=
          if jsTruthy storeUuid then
            (let v := jsChain (jsChain (some info) "storeInfoMetadata")
              "workingHoursTagline"
             if jsTruthy v then v else none)
          else none
        let restaurantImageUrl : Option Json :=
          if jsTruthy storeUuid then
            (let v := findRestaurantLogo info
             if jsTruthy v then v else none)
          else none
        let isUberOneEligible : Bool :=
          if jsTruthy storeUuid then findUberOneLogo info else false
        -- source lines 2830–2831: delivery info from the checkout payloads
        let deliveryCoords₁ : Option (Json × Json) :=
          match deliveryCoords₀ with
          | some c => some c
          | none => findDeliveryCoords checkoutPayloads
        let deliveryAddress₁ : Option String :=
          if strFound deliveryAddress₀ then deliveryAddress₀
          else
            (let r := findDeliveryAddress checkoutPayloads
             if strFound r then r else none)
        -- source lines 2834–2845: HTML fallback
        let htmlBlock : Bool :=
          (deliveryCoords₁.isNone ∨ ¬ strFound deliveryAddress₁) ∧ jsTruthy env.link
        let deliveryCoords₂ : Option (Json × Json) :=
          if htmlBlock ∧ deliveryCoords₁.isNone then
            match env.htmlScrape.coords with
            | some (la, lo) => some (.num la, .num lo)
            | none => none
          else deliveryCoords₁
        let deliveryAddress₂ : Option String :=
          if htmlBlock ∧ ¬ strFound deliveryAddress₁ ∧ strFound env.htmlScrape.address
          then env.htmlScrape.address
          else deliveryAddress₁
        let deliveryInstructions₂ : Option String :=
          if htmlBlock ∧ ¬ strFound deliveryInstructions₁ ∧
              strFound env.htmlScrape.instructions
          then env.htmlScrape.instructions
          else deliveryInstructions₁
        let customerDetails₂ : CustMap :=
          if htmlBlock ∧ strFound env.htmlScrape.phone ∧
              ¬ jsTruthy (lookupJs customerDetails₁ "customer_phone") then
            setKey customerDetails₁ "customer_phone"
              (.str ((env.htmlScrape.phone).getD ""))
          else customerDetails₁
        -- source lines 2848–2863: unconditional phone scrape
        let phoneBlock : Bool :=
          ¬ jsTruthy (lookupJs customerDetails₂ "customer_phone") ∧ jsTruthy env.link
        let customerDetails₃ : CustMap :=
          if phoneBlock ∧ strFound env.htmlScrape.phone then
            setKey customerDetails₂ "customer_phone"
              (.str ((env.htmlScrape.phone).getD ""))
          else customerDetails₂
        let deliveryInstructions₃ : Option String :=
          if phoneBlock ∧ strFound env.htmlScrape.instructions ∧
              ¬ strFound deliveryInstructions₂
          then env.htmlScrape.instructions
          else deliveryInstructions₂
        -- source lines 2866–2884: reverse-geocode enhancement
        let deliveryAddress₃ : Option String :=
          match deliveryCoords₂ with
          | some (la, lo) =>
            if la.truthy ∧ lo.truthy then
              match env.geo with
              | some loc =>
                (match enhanceAddress deliveryAddress₂ loc with
                 | some e => if e ≠ "" then some e else deliveryAddress₂
                 | none => deliveryAddress₂)
              | none => deliveryAddress₂
            else deliveryAddress₂
          | none => deliveryAddress₂
        -- source lines 2887–2891: total fallback
        let calculatedTotal : ℚ :=
          if b.total = 0 then b.subtotal + b.fees + b.taxes else b.total
        { success := true
          subtotal := b.subtotal
          fees := b.fees
          taxes := b.taxes
          delivery_fee := some b.deliveryFee
          service_fee := some b.serviceFee
          tip := some b.tip
          small_order_fee := some b.smallOrderFee
          adjustments_fee := some b.adjustmentsFee
          pickup_fee := some b.pickupFee
          other_fees := some b.otherFees
          has_uber_one := some b.hasUberOne
          uber_one_benefit := some b.uberOneBenefit
          items := items
          restaurant_name := restaurantName
          restaurant_address := restaurantAddress
          restaurant_hours := restaurantHours
          delivery_address := deliveryAddress₃
          delivery_instructions := deliveryInstructions₃
          restaurant_image_url := restaurantImageUrl
          is_uber_one_eligible := some isUberOneEligible
          total := some calculatedTotal
          currency := b.currencyCode
          customer_details := customerDetails₃ }

/-- `getOrderDetails(link)` (source lines 2467–2922): link validation, the two
fatal HTTP checks, the provider-failure check, then the success path.  (The
join-response processing of lines 2506–2587 is pure and consumed only by the
success path, so it lives in `successResult`.) -/
def getOrderDetails (env : OrderEnv) : OrderResult :=
  match extractGroupUuid env.link with
  | none => invalidLinkResult
  | some _ =>
    if env.joinStatus ≠ 200 then joinFailResult env.joinStatus
    else if env.checkoutStatus ≠ 200 then checkoutFailResult env.checkoutStatus
    else if (jsChain env.checkoutData "status").any
        (fun v => Json.beq v (.str "failure")) then apiFailureResult env
    else successResult env

/-! ## Concrete scenarios used by the theorems below -/

/-- An HTML scrape that found nothing. -/
def emptyScrape : ScrapeResult :=
  { address := none, coords := none, instructions := none, phone := none }

/-- A well-formed group-order environment whose join and checkout succeed with
empty bodies and whose enrichment passes found nothing. -/
def envEmptyOrder : OrderEnv :=
  { link := some (.str "https://eats.uber.com/group-orders/abc-123/join")
    joinStatus := 200, joinData := some (jobj [])
    checkoutStatus := 200, checkoutData := some (jobj [])
    storeData := none
    customerDetails0 := [], joinCustomerInfo := [], checkoutCustomerInfo := []
    realCheckoutData := [], realJoinData := [], additionalData := []
    joinInstructions := none, checkoutInstructions := none
    htmlScrape := emptyScrape, geo := none }

/-- The same call on a link with no extractable group-order UUID. -/
def envInvalidLink : OrderEnv :=
  { envEmptyOrder with link := some (.str "https://example.com/no-order-here") }

/-- The same call when the join endpoint answers HTTP 503. -/
def envJoin503 : OrderEnv := { envEmptyOrder with joinStatus := 503 }

/-- The same call when the checkout endpoint answers HTTP 503. -/
def envCheckout503 : OrderEnv := { envEmptyOrder with checkoutStatus := 503 }

/-- Scenario-B charge `{title: "Subtotal", amount: 18.00}` (titles carried the
way the provider sends them, as rich title objects read by `getTitle` via
`title.text`). -/
def chargeSubB : Json :=
  jobj [("title", jobj [("text", .str "Subtotal")]), ("amount", .num 18)]

/-- Scenario-B charge `{title: "Delivery Fee", amount: 3.99}`. -/
def chargeDelB : Json :=
  jobj [("title", jobj [("text", .str "Delivery Fee")]), ("amount", .num (3.99 : ℚ))]

/-- Scenario-B charge `{title: "Tax", amount: 1.44}`. -/
def chargeTaxB : Json :=
  jobj [("title", jobj [("text", .str "Tax")]), ("amount", .num (1.44 : ℚ))]

/-- The scenario-B checkout payload: exactly the three charges, no total. -/
def payloadScenarioB : Json :=
  jobj [("fareBreakdown", jobj [("charges", jarr [chargeSubB, chargeDelB, chargeTaxB])])]

/-- The scenario-B environment: successful join, checkout body carrying
`payloadScenarioB`. -/
def envScenarioB : OrderEnv :=
  { envEmptyOrder with
    checkoutData := some (jobj [("data", jobj [("checkoutPayloads", payloadScenarioB)])]) }

/-- `{title: "Uber One discount", amount: -2.5}` as the provider sends it. -/
def chargeUberOneDiscount : Json :=
  jobj [("title", jobj [("text", .str "Uber One discount")]), ("amount", .num (-(2.5 : ℚ)))]

/-- `{title: "Random Adjustment", amount: -3.0}` as the provider sends it. -/
def chargeRandomAdjustment : Json :=
  jobj [("title", jobj [("text", .str "Random Adjustment")]), ("amount", .num (-3))]

/-- A checkout payload carrying only an explicit fixed-point total of $25. -/
def payloadTotal25 : Json :=
  jobj [("total", jobj [("amountE5", .num 2500000)])]

/-! ## Theorems -/

theorem take_one_getElem_one (l : List String) : (l.take 1)[1]? = none := by
  cases l <;> rfl

/-- C9: `isSidExpired` returns `false` when no expiry is recorded, and
otherwise returns `true` exactly when less than 5 minutes (300 000 ms) remain
before the expiry; in particular `now + 4 min` is expired and `now + 6 min` is
not. -/
theorem isSidExpired_expiry_window :
    (∀ now : ℚ, isSidExpired none now = false) ∧
    (∀ now t : ℚ, (isSidExpired (some t) now = true ↔ t - now < 5 * 60 * 1000)) ∧
    (∀ now : ℚ, isSidExpired (some (now + 4 * 60 * 1000)) now = true) ∧
    (∀ now : ℚ, isSidExpired (some (now + 6 * 60 * 1000)) now = false) := by
  refine ⟨fun now => rfl, fun now t => ?_, fun now => ?_, fun now => ?_⟩ <;>
    simp [isSidExpired] <;> norm_num

theorem isSidExpired_expiry_window_witness :
    isSidExpired (some ((0 : ℚ) + 4 * 60 * 1000)) 0 = true ∧
    isSidExpired (some ((0 : ℚ) + 6 * 60 * 1000)) 0 = false :=
  ⟨isSidExpired_expiry_window.2.2.1 0, isSidExpired_expiry_window.2.2.2 0⟩

/-- C7: the fixed-point normalizer divides by 100000 (`1234500 ↦ 12.345`,
`{low: 250000} ↦ 2.5`) and yields 0 on every missing or falsy input
(`null`, `undefined`, and — in the rational model, where `NaN`/`∞` do not
occur — every other falsy value). -/
theorem safeAmountE5ToDollars_conversion :
    safeAmountE5ToDollars (some (.num 1234500)) = (12.345 : ℚ) ∧
    safeAmountE5ToDollars (some (jobj [("low", .num 250000)])) = (2.5 : ℚ) ∧
    safeAmountE5ToDollars (some .null) = 0 ∧
    safeAmountE5ToDollars none = 0 ∧
    (∀ j : Json, j.truthy = false → safeAmountE5ToDollars (some j) = 0) := by
  refine ⟨?_, ?_, rfl, rfl, fun j h => ?_⟩
  · simp [safeAmountE5ToDollars, jsTruthy, Json.truthy, jsNumber]
    norm_num
  · simp [safeAmountE5ToDollars, jsTruthy, Json.truthy, jsNumber, jobj,
      JsonObj.ofList, Json.getField, JsonObj.find]
    norm_num
  · unfold safeAmountE5ToDollars
    simp [jsTruthy, h]

theorem safeAmountE5ToDollars_conversion_witness :
    safeAmountE5ToDollars (some (.bool false)) = 0 :=
  safeAmountE5ToDollars_conversion.2.2.2.2 (.bool false) rfl

/-- C8: the quantity normalizer computes `coefficient × 10^exponent`
(`150 × 10⁻² = 1.5`; `300 × 10⁰ = 300`, no accidental scaling), passes a plain
`.quantity` or plain number through, and defaults to 1 on missing or malformed
input. -/
theorem extractQuantityFromItem_derivation :
    extractQuantityFromItem
      (jobj [("value", jobj [("coefficient", .num 150), ("exponent", .num (-2))])]) =
      some (.num (1.5 : ℚ)) ∧
    extractQuantityFromItem
      (jobj [("value", jobj [("coefficient", .num 300), ("exponent", .num 0)])]) =
      some (.num 300) ∧
    extractQuantityFromItem (jobj [("quantity", .num 4)]) = some (.num 4) ∧
    (∀ q : ℚ, extractQuantityFromItem (.num q) = some (.num q)) ∧
    extractQuantityFromItem .null = some (.num 1) ∧
    (∀ s : String, extractQuantityFromItem (.str s) = some (.num 1)) ∧
    (∀ b : Bool, extractQuantityFromItem (.bool b) = some (.num 1)) ∧
    extractQuantityFromItem (jobj []) = some (.num 1) := by
  refine ⟨?_, ?_, ?_, fun q => rfl, rfl, fun s => rfl, fun b => rfl, rfl⟩ <;>
    · simp [extractQuantityFromItem, jsChain, jsTruthy, Json.truthy, Json.getField,
        JsonObj.find, jobj, JsonObj.ofList, jsNumber]
      try norm_num

/-- C10: in `findDeliveryAddress`, an object whose `displayString` contains
`", "` yields no address from that field — `split(', ', 1)` keeps only the
first field, so the `[1]` read is `undefined` — while a `displayString`
without `", "` is returned verbatim. -/
theorem findDeliveryAddress_displayString_split (o : JsonObj) (s : String)
    (h : o.find "displayString" = some (.str s)) :
    (containsStr s ", " = true → findDeliveryAddress (Json.obj o) = none) ∧
    (containsStr s ", " = false → findDeliveryAddress (Json.obj o) = some s) := by
  constructor <;> intro hc <;>
    simp [findDeliveryAddress, h, hc, take_one_getElem_one]

theorem findDeliveryAddress_displayString_split_witness :
    findDeliveryAddress (jobj [("displayString", .str "Meet at my door, 12 Main St")]) =
      none ∧
    findDeliveryAddress (jobj [("displayString", .str "12 Main St")]) =
      some "12 Main St" := by
  have h₁ := findDeliveryAddress_displayString_split
    (JsonObj.ofList [("displayString", .str "Meet at my door, 12 Main St")])
    "Meet at my door, 12 Main St" rfl
  have h₂ := findDeliveryAddress_displayString_split
    (JsonObj.ofList [("displayString", .str "12 Main St")]) "12 Main St" rfl
  exact ⟨h₁.1 (by decide), h₂.2 (by decide)⟩

theorem updateCurrency_no_metadata (acc : FeeAcc) (c : Json)
    (h : c.getField "fareBreakdownChargeMetadata" = none) :
    updateCurrency acc c = acc := by
  unfold updateCurrency
  cases hcc : acc.currencyCode with
  | some v => rfl
  | none =>
    simp only [jsChain, h, jsIndexOpt, jsTruthy, Option.bind]
    cases acc with
    | mk s t d sv tp so ad pk ot hu ub cc => simp_all

theorem feeStepSubB : feeStep feeInit chargeSubB =
    ⟨18, 0, 0, 0, 0, 0, 0, 0, 0, false, 0, none⟩ := by
  have t : getTitle chargeSubB = "subtotal" := by decide
  have a : getAmount chargeSubB = some 18 := by decide
  have y : getType chargeSubB = "" := by decide
  have u : updateCurrency ⟨0, 0, 0, 0, 0, 0, 0, 0, 0, false, 0, none⟩ chargeSubB =
      ⟨0, 0, 0, 0, 0, 0, 0, 0, 0, false, 0, none⟩ :=
    updateCurrency_no_metadata _ _ (by decide)
  have k1 : hasDiscountKeyword "subtotal" = false := by decide
  have k2 : containsStr "subtotal" "subtotal" = true := by decide
  simp [feeStep, feeInit, t, a, y, u, k1, k2]

theorem feeStepDelB : feeStep ⟨18, 0, 0, 0, 0, 0, 0, 0, 0, false, 0, none⟩ chargeDelB =
    ⟨18, 0, (3.99 : ℚ), 0, 0, 0, 0, 0, 0, false, 0, none⟩ := by
  have t : getTitle chargeDelB = "delivery fee" := by decide
  have a : getAmount chargeDelB = some (3.99 : ℚ) := by
    simp [getAmount, chargeDelB, jsChain, jsTruthy, Json.truthy, Json.getField,
      JsonObj.find, jobj, JsonObj.ofList, jsLength, jsIndexOpt, jsOr]
  have y : getType chargeDelB = "" := by decide
  have u : updateCurrency ⟨18, 0, 0, 0, 0, 0, 0, 0, 0, false, 0, none⟩ chargeDelB =
      ⟨18, 0, 0, 0, 0, 0, 0, 0, 0, false, 0, none⟩ :=
    updateCurrency_no_metadata _ _ (by decide)
  have k1 : hasDiscountKeyword "delivery fee" = false := by decide
  have k2 : containsStr "delivery fee" "subtotal" = false := by decide
  have k3 : containsStr "delivery fee" "tax" = false := by decide
  have k4 : containsStr "delivery fee" "taxes" = false := by decide
  have k5 : containsStr "delivery fee" "delivery" = true := by decide
  simp [feeStep, t, a, y, u, k1, k2, k3, k4, k5]
  norm_num

theorem feeStepTaxB : feeStep ⟨18, 0, (3.99 : ℚ), 0, 0, 0, 0, 0, 0, false, 0, none⟩
    chargeTaxB = ⟨18, (1.44 : ℚ), (3.99 : ℚ), 0, 0, 0, 0, 0, 0, false, 0, none⟩ := by
  have t : getTitle chargeTaxB = "tax" := by decide
  have a : getAmount chargeTaxB = some (1.44 : ℚ) := by
    simp [getAmount, chargeTaxB, jsChain, jsTruthy, Json.truthy, Json.getField,
      JsonObj.find, jobj, JsonObj.ofList, jsLength, jsIndexOpt, jsOr]
  have y : getType chargeTaxB = "" := by decide
  have u : updateCurrency ⟨18, 0, (3.99 : ℚ), 0, 0, 0, 0, 0, 0, false, 0, none⟩
      chargeTaxB = ⟨18, 0, (3.99 : ℚ), 0, 0, 0, 0, 0, 0, false, 0, none⟩ :=
    updateCurrency_no_metadata _ _ (by decide)
  have k1 : hasDiscountKeyword "tax" = false := by decide
  have k2 : containsStr "tax" "subtotal" = false := by decide
  have k3 : containsStr "tax" "tax" = true := by decide
  simp [feeStep, t, a, y, u, k1, k2, k3]
  norm_num

theorem elemsScenarioB : jsElems (allChargesVal payloadScenarioB) =
    [chargeSubB, chargeDelB, chargeTaxB] := by
  simp [payloadScenarioB, allChargesVal, jsChain, jsOr, jsTruthy, Json.truthy,
    Json.getField, JsonObj.find, jobj, jarr, JsonObj.ofList, JsonArr.ofList, jsElems,
    JsonArr.toList, jsLength]
  try norm_num

theorem breakdownScenarioB : extractSubtotalAndFeesFromCheckoutPayloads payloadScenarioB =
    ⟨18, (1.44 : ℚ), (3.99 : ℚ), (3.99 : ℚ), 0, 0, 0, 0, 0, 0, false, (1.71 : ℚ), 0,
      none⟩ := by
  unfold extractSubtotalAndFeesFromCheckoutPayloads
  rw [elemsScenarioB]
  simp only [List.foldl_cons, List.foldl_nil, feeStepSubB, feeStepDelB, feeStepTaxB]
  simp [feePost, payloadScenarioB, jsChain, jsTruthy, Json.truthy, Json.getField,
    JsonObj.find, jobj, JsonObj.ofList, jsIndexOpt, jsIndex0, jsOr, safeAmountE5ToDollars,
    jsNumber]
  norm_num [round2]

theorem dispatchScenarioB : getOrderDetails envScenarioB = successResult envScenarioB := by
  have hu : extractGroupUuid envScenarioB.link = some "abc-123" := by decide
  have h1 : envScenarioB.joinStatus = 200 := rfl
  have h2 : envScenarioB.checkoutStatus = 200 := rfl
  have h3 : jsChain envScenarioB.checkoutData "status" = none := rfl
  simp [getOrderDetails, hu, h1, h2, h3]

/-- C3: the scenario-B payload (charges `Subtotal` $18.00, `Delivery Fee`
$3.99, `Tax` $1.44, no provider total) reconciles to `subtotal = 18`,
`delivery_fee = 3.99`, `taxes = 1.44`, `fees = 3.99`, and — since the provider
supplied no total — the pipeline recomputes `total = subtotal + fees + taxes
= 23.43`. -/
theorem scenarioB_breakdown_and_total :
    (extractSubtotalAndFeesFromCheckoutPayloads payloadScenarioB).subtotal = 18 ∧
    (extractSubtotalAndFeesFromCheckoutPayloads payloadScenarioB).deliveryFee =
      (3.99 : ℚ) ∧
    (extractSubtotalAndFeesFromCheckoutPayloads payloadScenarioB).taxes = (1.44 : ℚ) ∧
    (extractSubtotalAndFeesFromCheckoutPayloads payloadScenarioB).fees = (3.99 : ℚ) ∧
    (extractSubtotalAndFeesFromCheckoutPayloads payloadScenarioB).total = 0 ∧
    (getOrderDetails envScenarioB).subtotal = 18 ∧
    (getOrderDetails envScenarioB).delivery_fee = some (3.99 : ℚ) ∧
    (getOrderDetails envScenarioB).taxes = (1.44 : ℚ) ∧
    (getOrderDetails envScenarioB).fees = (3.99 : ℚ) ∧
    (getOrderDetails envScenarioB).total = some (23.43 : ℚ) := by
  have hchain : (jsOr (jsChain (jsChain envScenarioB.checkoutData "data")
      "checkoutPayloads") (some (jobj []))).getD (jobj []) = payloadScenarioB := rfl
  refine ⟨?_, ?_, ?_, ?_, ?_, ?_, ?_, ?_, ?_, ?_⟩
  case _ | _ | _ | _ | _ =>
    rw [breakdownScenarioB]
    try norm_num
  all_goals
    rw [dispatchScenarioB]
    simp only [successResult]
    rw [hchain, breakdownScenarioB]
    try norm_num

theorem updateCurrency_projections (acc : FeeAcc) (c : Json) :
    (updateCurrency acc c).subtotal = acc.subtotal ∧
    (updateCurrency acc c).taxes = acc.taxes ∧
    (updateCurrency acc c).deliveryFee = acc.deliveryFee ∧
    (updateCurrency acc c).serviceFee = acc.serviceFee ∧
    (updateCurrency acc c).tip = acc.tip ∧
    (updateCurrency acc c).smallOrderFee = acc.smallOrderFee ∧
    (updateCurrency acc c).adjustmentsFee = acc.adjustmentsFee ∧
    (updateCurrency acc c).pickupFee = acc.pickupFee ∧
    (updateCurrency acc c).otherFees = acc.otherFees ∧
    (updateCurrency acc c).hasUberOne = acc.hasUberOne ∧
    (updateCurrency acc c).uberOneBenefit = acc.uberOneBenefit := by
  unfold updateCurrency
  cases hc : acc.currencyCode <;> simp

/-- C4: a negative charge whose derived title carries a discount/benefit
keyword adds its magnitude to the loyalty benefit, sets the loyalty flag and
touches no fee category; every other negative charge is skipped entirely.  In
particular `{title: "Uber One discount", amount: -2.5}` contributes 2.5 to the
benefit and nothing to any fee, and `{title: "Random Adjustment", amount:
-3.0}` contributes to nothing. -/
theorem feeStep_negative_amount_policy :
    (∀ (acc : FeeAcc) (c : Json) (a : ℚ), getAmount c = some a → a < 0 →
      (hasDiscountKeyword (getTitle c) = true →
        (feeStep acc c).hasUberOne = true ∧
        (feeStep acc c).uberOneBenefit = acc.uberOneBenefit + |a| ∧
        (feeStep acc c).subtotal = acc.subtotal ∧
        (feeStep acc c).taxes = acc.taxes ∧
        (feeStep acc c).deliveryFee = acc.deliveryFee ∧
        (feeStep acc c).serviceFee = acc.serviceFee ∧
        (feeStep acc c).tip = acc.tip ∧
        (feeStep acc c).smallOrderFee = acc.smallOrderFee ∧
        (feeStep acc c).adjustmentsFee = acc.adjustmentsFee ∧
        (feeStep acc c).pickupFee = acc.pickupFee ∧
        (feeStep acc c).otherFees = acc.otherFees) ∧
      (hasDiscountKeyword (getTitle c) = false →
        feeStep acc c = updateCurrency acc c)) ∧
    (feeStep feeInit chargeUberOneDiscount).uberOneBenefit = (2.5 : ℚ) ∧
    (feeStep feeInit chargeUberOneDiscount).hasUberOne = true ∧
    (feeStep feeInit chargeUberOneDiscount).deliveryFee = 0 ∧
    (feeStep feeInit chargeUberOneDiscount).serviceFee = 0 ∧
    (feeStep feeInit chargeUberOneDiscount).tip = 0 ∧
    (feeStep feeInit chargeUberOneDiscount).smallOrderFee = 0 ∧
    (feeStep feeInit chargeUberOneDiscount).adjustmentsFee = 0 ∧
    (feeStep feeInit chargeUberOneDiscount).pickupFee = 0 ∧
    (feeStep feeInit chargeUberOneDiscount).otherFees = 0 ∧
    feeStep feeInit chargeRandomAdjustment = feeInit := by
  have hMain : ∀ (acc : FeeAcc) (c : Json) (a : ℚ), getAmount c = some a → a < 0 →
      (hasDiscountKeyword (getTitle c) = true →
        (feeStep acc c).hasUberOne = true ∧
        (feeStep acc c).uberOneBenefit = acc.uberOneBenefit + |a| ∧
        (feeStep acc c).subtotal = acc.subtotal ∧
        (feeStep acc c).taxes = acc.taxes ∧
        (feeStep acc c).deliveryFee = acc.deliveryFee ∧
        (feeStep acc c).serviceFee = acc.serviceFee ∧
        (feeStep acc c).tip = acc.tip ∧
        (feeStep acc c).smallOrderFee = acc.smallOrderFee ∧
        (feeStep acc c).adjustmentsFee = acc.adjustmentsFee ∧
        (feeStep acc c).pickupFee = acc.pickupFee ∧
        (feeStep acc c).otherFees = acc.otherFees) ∧
      (hasDiscountKeyword (getTitle c) = false →
        feeStep acc c = updateCurrency acc c) := by
    intro acc c a hA hNeg
    obtain ⟨p1, p2, p3, p4, p5, p6, p7, p8, p9, p10, p11⟩ :=
      updateCurrency_projections acc c
    constructor
    · intro hK
      simp only [feeStep, hA]
      rw [if_pos ⟨hNeg, hK⟩]
      simp [p1, p2, p3, p4, p5, p6, p7, p8, p9, p10, p11]
    · intro hK
      simp only [feeStep, hA]
      rw [if_neg (by simp [hK]), if_pos hNeg]
  have hUber : feeStep feeInit chargeUberOneDiscount =
      ⟨0, 0, 0, 0, 0, 0, 0, 0, 0, true, (2.5 : ℚ), none⟩ := by
    have t : getTitle chargeUberOneDiscount = "uber one discount" := by decide
    have a : getAmount chargeUberOneDiscount = some (-(2.5 : ℚ)) := by
      simp [getAmount, chargeUberOneDiscount, jsChain, jsTruthy, Json.truthy,
        Json.getField, JsonObj.find, jobj, JsonObj.ofList, jsLength, jsIndexOpt, jsOr]
    have y : getType chargeUberOneDiscount = "" := by decide
    have u : updateCurrency ⟨0, 0, 0, 0, 0, 0, 0, 0, 0, false, 0, none⟩
        chargeUberOneDiscount = ⟨0, 0, 0, 0, 0, 0, 0, 0, 0, false, 0, none⟩ :=
      updateCurrency_no_metadata _ _ (by decide)
    have k : hasDiscountKeyword "uber one discount" = true := by decide
    simp [feeStep, feeInit, t, a, y, u, k]
    norm_num
  have hRand : feeStep feeInit chargeRandomAdjustment = feeInit := by
    have t : getTitle chargeRandomAdjustment = "random adjustment" := by decide
    have a : getAmount chargeRandomAdjustment = some (-3) := by
      simp [getAmount, chargeRandomAdjustment, jsChain, jsTruthy, Json.truthy,
        Json.getField, JsonObj.find, jobj, JsonObj.ofList, jsLength, jsIndexOpt, jsOr]
    have y : getType chargeRandomAdjustment = "" := by decide
    have u : updateCurrency ⟨0, 0, 0, 0, 0, 0, 0, 0, 0, false, 0, none⟩
        chargeRandomAdjustment = ⟨0, 0, 0, 0, 0, 0, 0, 0, 0, false, 0, none⟩ :=
      updateCurrency_no_metadata _ _ (by decide)
    have k : hasDiscountKeyword "random adjustment" = false := by decide
    simp [feeStep, feeInit, t, a, y, u, k]
  refine ⟨hMain, ?_, ?_, ?_, ?_, ?_, ?_, ?_, ?_, ?_, hRand⟩ <;> rw [hUber]

theorem feeStep_negative_amount_policy_witness :
    feeStep feeInit chargeRandomAdjustment =
      updateCurrency feeInit chargeRandomAdjustment := by
  have a : getAmount chargeRandomAdjustment = some (-3) := by
    simp [getAmount, chargeRandomAdjustment, jsChain, jsTruthy, Json.truthy,
      Json.getField, JsonObj.find, jobj, JsonObj.ofList, jsLength, jsIndexOpt, jsOr]
  exact (feeStep_negative_amount_policy.1 feeInit chargeRandomAdjustment (-3) a
    (by norm_num)).2 (by decide)

/-- C5: when the classification loop left `subtotal = 20`, `taxes = 0` and
every fee sub-category zero, and the payload carries an explicit total of 25,
fee fallback #1 back-computes `fees = total - subtotal - taxes = 5.00` into
`otherFees`, and the flat-fee estimation fallback (#2) is not applied: the
estimated delivery ($3.99), service (12%) and small-order ($2.00) fees all
stay zero. -/
theorem feePost_fallback_chain_ordering (acc : FeeAcc)
    (h1 : acc.subtotal = 20) (h2 : acc.taxes = 0) (h3 : acc.deliveryFee = 0)
    (h4 : acc.serviceFee = 0) (h5 : acc.tip = 0) (h6 : acc.smallOrderFee = 0)
    (h7 : acc.adjustmentsFee = 0) (h8 : acc.pickupFee = 0) (h9 : acc.otherFees = 0) :
    (feePost acc payloadTotal25).fees = 5 ∧
    (feePost acc payloadTotal25).otherFees = 5 ∧
    (feePost acc payloadTotal25).deliveryFee = 0 ∧
    (feePost acc payloadTotal25).serviceFee = 0 ∧
    (feePost acc payloadTotal25).smallOrderFee = 0 ∧
    (feePost acc payloadTotal25).total = 25 := by
  refine ⟨?_, ?_, ?_, ?_, ?_, ?_⟩ <;>
    · simp [feePost, h1, h2, h3, h4, h5, h6, h7, h8, h9, payloadTotal25, jsChain,
        jsTruthy, Json.truthy, Json.getField, JsonObj.find, jobj, JsonObj.ofList,
        jsIndexOpt, jsIndex0, jsOr, safeAmountE5ToDollars, jsNumber]
      try norm_num [round2]

theorem feePost_fallback_chain_ordering_witness :
    (feePost ⟨20, 0, 0, 0, 0, 0, 0, 0, 0, false, 0, none⟩ payloadTotal25).fees = 5 ∧
    (feePost ⟨20, 0, 0, 0, 0, 0, 0, 0, 0, false, 0, none⟩ payloadTotal25).deliveryFee
      = 0 :=
  ⟨(feePost_fallback_chain_ordering ⟨20, 0, 0, 0, 0, 0, 0, 0, 0, false, 0, none⟩
      rfl rfl rfl rfl rfl rfl rfl rfl rfl).1,
   (feePost_fallback_chain_ordering ⟨20, 0, 0, 0, 0, 0, 0, 0, 0, false, 0, none⟩
      rfl rfl rfl rfl rfl rfl rfl rfl rfl).2.2.1⟩

/-- C6: with a valid group-order link, a join response with HTTP status other
than 200 makes `getOrderDetails` return the structured failure object
`{success: false, error: "join failed: <status>"}` with zero
subtotal/fees/taxes and empty items; a non-200 checkout response analogously
yields `{success: false, error: "checkout failed: <status>"}`. -/
theorem getOrderDetails_http_failures (env : OrderEnv) (u : String)
    (hu : extractGroupUuid env.link = some u) :
    (env.joinStatus ≠ 200 →
      getOrderDetails env =
        { success := false, error := some ("join failed: " ++ toString env.joinStatus)
          subtotal := 0, fees := 0, taxes := 0, items := [], customer_details := [] }) ∧
    (env.joinStatus = 200 → env.checkoutStatus ≠ 200 →
      getOrderDetails env =
        { success := false
          error := some ("checkout failed: " ++ toString env.checkoutStatus)
          subtotal := 0, fees := 0, taxes := 0, items := [], customer_details := [] }) := by
  constructor
  · intro hj
    simp [getOrderDetails, hu, hj, joinFailResult]
  · intro hj hc
    simp [getOrderDetails, hu, hj, hc, checkoutFailResult]

theorem getOrderDetails_http_failures_witness :
    getOrderDetails envJoin503 =
      { success := false, error := some "join failed: 503"
        subtotal := 0, fees := 0, taxes := 0, items := [], customer_details := [] } ∧
    getOrderDetails envCheckout503 =
      { success := false, error := some "checkout failed: 503"
        subtotal := 0, fees := 0, taxes := 0, items := [], customer_details := [] } :=
  ⟨(getOrderDetails_http_failures envJoin503 "abc-123" (by decide)).1 (by decide),
   (getOrderDetails_http_failures envCheckout503 "abc-123" (by decide)).2 rfl
     (by decide)⟩

/-- C1 (amended): every failure result has zero subtotal/fees/taxes and empty
items, and carries a non-null `error` string except on the invalid-link path
(which returns no `error` at all); every success result carries no `error`.
(The original claim's "success implies items non-empty or subtotal > 0" part
is refuted by `getOrderDetails_invariant_counterexample`.) -/
theorem getOrderDetails_result_invariant (env : OrderEnv) :
    ((getOrderDetails env).success = false →
      (getOrderDetails env).subtotal = 0 ∧ (getOrderDetails env).fees = 0 ∧
      (getOrderDetails env).taxes = 0 ∧ (getOrderDetails env).items = [] ∧
      ((getOrderDetails env).error ≠ none ∨ extractGroupUuid env.link = none)) ∧
    ((getOrderDetails env).success = true → (getOrderDetails env).error = none) := by
  unfold getOrderDetails
  cases hu : extractGroupUuid env.link with
  | none =>
    exact ⟨fun _ => ⟨rfl, rfl, rfl, rfl, Or.inr rfl⟩, fun h => nomatch h⟩
  | some u =>
    split_ifs with hj hc hf
    · exact ⟨fun _ => ⟨rfl, rfl, rfl, rfl, Or.inl (fun h => nomatch h)⟩,
        fun h => nomatch h⟩
    · exact ⟨fun _ => ⟨rfl, rfl, rfl, rfl, Or.inl (fun h => nomatch h)⟩,
        fun h => nomatch h⟩
    · exact ⟨fun _ => ⟨rfl, rfl, rfl, rfl, Or.inl (fun h => nomatch h)⟩,
        fun h => nomatch h⟩
    · constructor
      · intro h
        exact absurd h (by simp [successResult])
      · intro h
        rfl

theorem getOrderDetails_result_invariant_witness :
    (getOrderDetails envJoin503).subtotal = 0 ∧
    (getOrderDetails envJoin503).items = [] := by
  have h := (getOrderDetails_result_invariant envJoin503).1 rfl
  exact ⟨h.1, h.2.2.2.1⟩

/-- C1, counterexample to the claim as stated: the invalid-link failure object
carries no `error` at all, and an order whose checkout body is empty succeeds
with empty `items` and `subtotal = 0`. -/
theorem getOrderDetails_invariant_counterexample :
    ((getOrderDetails envInvalidLink).success = false ∧
     (getOrderDetails envInvalidLink).error = none) ∧
    ((getOrderDetails envEmptyOrder).success = true ∧
     (getOrderDetails envEmptyOrder).items = [] ∧
     (getOrderDetails envEmptyOrder).subtotal = 0) := by
  exact ⟨⟨rfl, rfl⟩, ⟨rfl, rfl, rfl⟩⟩

theorem lookupJs_cons (kv : String × Json) (m : CustMap) (k : String) :
    lookupJs (kv :: m) k = if kv.1 = k then some kv.2 else lookupJs m k := by
  by_cases h : kv.1 = k <;> simp [lookupJs, List.find?_cons, h]

theorem lookupJs_setKey (m : CustMap) (k k' : String) (v : Json) :
    lookupJs (setKey m k v) k' = if k = k' then some v else lookupJs m k' := by
  induction m with
  | nil => by_cases h : k = k' <;> simp [setKey, lookupJs, h]
  | cons kv rest ih =>
    by_cases h2 : k = k'
    · subst h2
      by_cases h1 : kv.1 = k <;> simp [setKey, h1, lookupJs_cons, ih]
    · by_cases h1 : kv.1 = k <;> simp [setKey, h1, lookupJs_cons, ih, h2]

theorem mergeStep_preserves (excl : List String) (kv : String × Json) (m : CustMap)
    (k : String) (h : jsTruthy (lookupJs m k) = true) :
    lookupJs (mergeStep excl m kv) k = lookupJs m k := by
  unfold mergeStep
  split_ifs with hc
  · rcases eq_or_ne kv.1 k with he | hne
    · rw [he] at hc
      simp [h] at hc
    · rw [lookupJs_setKey]
      simp [hne]
  · rfl

theorem mergeIfAbsent_preserves (src : CustMap) (m : CustMap) (k : String)
    (excl : List String) (h : jsTruthy (lookupJs m k) = true) :
    lookupJs (mergeIfAbsent m src excl) k = lookupJs m k := by
  induction src generalizing m with
  | nil => rfl
  | cons kv rest ih =>
    have h1 := mergeStep_preserves excl kv m k h
    rw [mergeIfAbsent, List.foldl_cons]
    rw [show List.foldl (mergeStep excl) (mergeStep excl m kv) rest =
      mergeIfAbsent (mergeStep excl m kv) rest excl from rfl]
    rw [ih _ (by rw [h1]; exact h), h1]

theorem lookupJs_keysFoldl (f : CustMap → String → CustMap) (keys : List String)
    (m : CustMap) (k : String)
    (hf : ∀ (m' : CustMap) (k' : String), k' ∈ keys →
      lookupJs (f m' k') k = lookupJs m' k) :
    lookupJs (keys.foldl f m) k = lookupJs m k := by
  induction keys generalizing m with
  | nil => rfl
  | cons k' rest ih =>
    rw [List.foldl_cons, ih _ (fun m'' k'' hm => hf m'' k'' (List.mem_cons_of_mem _ hm)),
      hf m k' (List.mem_cons_self _ _)]

theorem concatListKey_preserves (realC realJ : CustMap) (m : CustMap) (k k' : String)
    (h : k' ≠ k) :
    lookupJs (concatListKey realC realJ m k') k = lookupJs m k := by
  rw [concatListKey, lookupJs_setKey]
  simp [h]

theorem dedupListKey_preserves (m : CustMap) (k k' : String) (h : k' ≠ k) :
    lookupJs (dedupListKey m k') k = lookupJs m k := by
  rw [dedupListKey, lookupJs_setKey]
  simp [h]

theorem phoneMerge_preserves (src m : CustMap) (k : String)
    (h : jsTruthy (lookupJs m k) = true) :
    lookupJs (phoneMerge src m) k = lookupJs m k := by
  unfold phoneMerge
  split_ifs with hc
  · rcases eq_or_ne "customer_phone" k with he | hne
    · rw [← he] at h
      simp [h] at hc
    · rw [lookupJs_setKey]
      simp [hne]
  · rfl

theorem instrWrite_preserves (instr : Option String) (m : CustMap) (k : String)
    (h : k ≠ "delivery_instructions") :
    lookupJs (instrWrite instr m) k = lookupJs m k := by
  unfold instrWrite
  cases instr with
  | none => rfl
  | some i =>
    show lookupJs (if i ≠ "" then setKey m "delivery_instructions" (.str i) else m) k =
      lookupJs m k
    split_ifs with hi
    · rw [lookupJs_setKey]
      simp [Ne.symm h]
    · rfl
theorem mergeCustomerDetails_preserves_scalar (base realC realJ additional : CustMap)
    (instr : Option String) (k : String) (v : Json)
    (hb : lookupJs base k = some v) (hv : v.truthy = true)
    (hk : k ∉ customerListKeys) (hd : k ≠ "delivery_instructions") :
    lookupJs (mergeCustomerDetails base [] [] realC realJ additional instr) k = some v := by
  have hkf : ∀ (m' : CustMap) (k' : String), k' ∈ customerListKeys →
      lookupJs (concatListKey realC realJ m' k') k = lookupJs m' k :=
    fun m' k' hm => concatListKey_preserves _ _ _ _ _ (fun he => hk (he ▸ hm))
  have hdf : ∀ (m' : CustMap) (k' : String), k' ∈ customerListKeys →
      lookupJs (dedupListKey m' k') k = lookupJs m' k :=
    fun m' k' hm => dedupListKey_preserves _ _ _ (fun he => hk (he ▸ hm))
  have step : ∀ (S : CustMap → CustMap),
      (∀ m', jsTruthy (lookupJs m' k) = true → lookupJs (S m') k = lookupJs m' k) →
      ∀ m', lookupJs m' k = some v → lookupJs (S m') k = some v := by
    intro S hS m' hm'
    rw [hS m' (by rw [hm']; exact hv)]
    exact hm'
  exact step (fun m => List.foldl dedupListKey m customerListKeys)
      (fun m' _ => lookupJs_keysFoldl _ _ _ _ hdf) _
    (step (instrWrite instr) (fun m' _ => instrWrite_preserves instr m' k hd) _
      (step (fun m => mergeIfAbsent m additional [])
          (fun m' h' => mergeIfAbsent_preserves additional m' k [] h') _
        (step (fun m => mergeIfAbsent m realJ customerListKeys)
            (fun m' h' => mergeIfAbsent_preserves realJ m' k customerListKeys h') _
          (step (fun m => mergeIfAbsent m realC customerListKeys)
              (fun m' h' => mergeIfAbsent_preserves realC m' k customerListKeys h') _
            (step (phoneMerge realJ) (fun m' h' => phoneMerge_preserves realJ m' k h') _
              (step (phoneMerge realC) (fun m' h' => phoneMerge_preserves realC m' k h') _
                (step (fun m => List.foldl (concatListKey realC realJ) m customerListKeys)
                    (fun m' _ => lookupJs_keysFoldl _ _ _ _ hkf) _ hb)))))))
theorem mergeCustomerDetails_assign_overwrites (base realC realJ additional : CustMap)
    (k : String) (v₁ v₂ : Json)
    (hb : lookupJs base k = some v₁) (hv₂ : v₂.truthy = true)
    (hk : k ∉ customerListKeys) (hd : k ≠ "delivery_instructions") :
    lookupJs (mergeCustomerDetails base [(k, v₂)] [] realC realJ additional none) k =
      some v₂ := by
  have h0 : lookupJs (objectAssign base [(k, v₂)]) k = some v₂ := by
    show lookupJs (setKey base k v₂) k = some v₂
    rw [lookupJs_setKey]
    simp
  have hkf : ∀ (m' : CustMap) (k' : String), k' ∈ customerListKeys →
      lookupJs (concatListKey realC realJ m' k') k = lookupJs m' k :=
    fun m' k' hm => concatListKey_preserves _ _ _ _ _ (fun he => hk (he ▸ hm))
  have hdf : ∀ (m' : CustMap) (k' : String), k' ∈ customerListKeys →
      lookupJs (dedupListKey m' k') k = lookupJs m' k :=
    fun m' k' hm => dedupListKey_preserves _ _ _ (fun he => hk (he ▸ hm))
  have step : ∀ (S : CustMap → CustMap),
      (∀ m', jsTruthy (lookupJs m' k) = true → lookupJs (S m') k = lookupJs m' k) →
      ∀ m', lookupJs m' k = some v₂ → lookupJs (S m') k = some v₂ := by
    intro S hS m' hm'
    rw [hS m' (by rw [hm']; exact hv₂)]
    exact hm'
  exact step (fun m => List.foldl dedupListKey m customerListKeys)
      (fun m' _ => lookupJs_keysFoldl _ _ _ _ hdf) _
    (step (instrWrite none) (fun m' _ => instrWrite_preserves none m' k hd) _
      (step (fun m => mergeIfAbsent m additional [])
          (fun m' h' => mergeIfAbsent_preserves additional m' k [] h') _
        (step (fun m => mergeIfAbsent m realJ customerListKeys)
            (fun m' h' => mergeIfAbsent_preserves realJ m' k customerListKeys h') _
          (step (fun m => mergeIfAbsent m realC customerListKeys)
              (fun m' h' => mergeIfAbsent_preserves realC m' k customerListKeys h') _
            (step (phoneMerge realJ) (fun m' h' => phoneMerge_preserves realJ m' k h') _
              (step (phoneMerge realC) (fun m' h' => phoneMerge_preserves realC m' k h') _
                (step (fun m => List.foldl (concatListKey realC realJ) m customerListKeys)
                    (fun m' _ => lookupJs_keysFoldl _ _ _ _ hkf) _ h0)))))))

/-- C2 (amended): in the customer-details merge, first-writer-wins holds for
the `extractRealCustomerData` passes, the additional-data pass and the
HTML-phone merge — a truthy scalar already present is never overwritten by
them — but the `extractCustomerFromJoinData` / `extractCustomerFromCheckoutData`
outputs are merged with `Object.assign`, which overwrites: their value wins
over an earlier one (last-writer-wins for those two passes). -/
theorem mergeCustomerDetails_scalar_policy :
    (∀ (base realC realJ additional : CustMap) (instr : Option String) (k : String)
      (v : Json), lookupJs base k = some v → v.truthy = true →
      ¬ k ∈ customerListKeys → k ≠ "delivery_instructions" →
      lookupJs (mergeCustomerDetails base [] [] realC realJ additional instr) k =
        some v) ∧
    (∀ (base realC realJ additional : CustMap) (k : String) (v₁ v₂ : Json),
      lookupJs base k = some v₁ → v₂.truthy = true →
      ¬ k ∈ customerListKeys → k ≠ "delivery_instructions" →
      lookupJs (mergeCustomerDetails base [(k, v₂)] [] realC realJ additional none) k =
        some v₂) :=
  ⟨fun base realC realJ additional instr k v hb hv hk hd =>
    mergeCustomerDetails_preserves_scalar base realC realJ additional instr k v hb hv
      hk hd,
   fun base realC realJ additional k v₁ v₂ hb hv₂ hk hd =>
    mergeCustomerDetails_assign_overwrites base realC realJ additional k v₁ v₂ hb hv₂
      hk hd⟩

theorem mergeCustomerDetails_scalar_policy_witness :
    lookupJs (mergeCustomerDetails [("customer_phone", .str "111")] [] []
      [("customer_phone", .str "333")] [("customer_phone", .str "444")]
      [("customer_phone", .str "555")] none) "customer_phone" = some (.str "111") :=
  mergeCustomerDetails_scalar_policy.1 [("customer_phone", .str "111")] _ _ _ none
    "customer_phone" (.str "111") rfl rfl (by decide) (by decide)

/-- C2, counterexample to the claim as stated: `extractCustomerDetails` set
`customer_phone = "111"`, the later `extractCustomerFromJoinData` pass found
`"222"`, and the `Object.assign` merge makes the final value `"222"`, not the
first-written `"111"`. -/
theorem mergeCustomerDetails_overwrite_counterexample :
    lookupJs (mergeCustomerDetails [("customer_phone", .str "111")]
      [("customer_phone", .str "222")] [] [] [] [] none) "customer_phone" =
      some (.str "222") := by decide

end UberEats
